import Mathlib

/-!
Shallow embedding of the 5axisPrinter G-code processing pipeline
(`gcode_processor_gui.py` and `python scripts -interface/klipper_converter.py`).

Numbers that the Python code handles as floats are modelled as rationals (ℚ).
The numerical kernels the code delegates to external libraries
(numpy / math: sin, cos, arctan, sqrt, radians, pi; scipy: the CubicSpline
object) are not code of this repository; they are abstracted as function
parameters (`MathLib`, `Spline`) so every pipeline definition below is a
direct transcription of the repository's own statements.
-/

/-- Abstraction of the external math library (numpy / math module calls made
by the source: `np.sin`, `np.cos`, `np.arctan`, `np.sqrt`, `math.radians`,
`math.pi` / `np.pi`). -/
structure MathLib where
  sin : ℚ → ℚ
  cos : ℚ → ℚ
  arctan : ℚ → ℚ
  sqrt : ℚ → ℚ
  radians : ℚ → ℚ
  pi : ℚ

/-- Abstraction of the scipy `CubicSpline` object built at
`CubicSpline(spline_z, spline_x, bc_type=((1, 0), (1, 2.5)))`.  With scipy's
default `extrapolate=True` the spline and its derivative are total functions
(polynomial extrapolation outside the control-point range), so they are
modelled as total functions: `eval h` is `spline(h)` and `deriv h` is
`spline(h, 1)`. -/
structure Spline where
  eval : ℚ → ℚ
  deriv : ℚ → ℚ

/-- Helper for `floatParse`: numeric value of a digit string (most
significant first). -/
def digitsVal (cs : List Char) : ℕ :=
  cs.foldl (fun a c => 10 * a + (c.toNat - 48)) 0

/-- Python `float(s)` restricted to the unsigned part of the strings the
motion-line regexes can capture (characters from `[0-9.]`): it succeeds
exactly when there is at most one dot and at least one digit, the value
being the signed decimal `intpart.fracpart` as an exact rational, and fails
(raises `ValueError`) otherwise, e.g. on `"."` or `"1.2.3"`. -/
def floatParseCore (sign : ℤ) (cs : List Char) : Option ℚ :=
  if cs.all (fun c => c.isDigit || c == '.') ∧ cs.count '.' ≤ 1 ∧ cs.any (fun c => c.isDigit) then
    some (mkRat
      (sign * (digitsVal (cs.takeWhile (fun c => c ≠ '.') ++
        (cs.dropWhile (fun c => c ≠ '.')).drop 1) : ℤ))
      (10 ^ ((cs.dropWhile (fun c => c ≠ '.')).drop 1).length))
  else none

/-- Python `float` on a regex capture: optional leading minus, then
`floatParseCore`. -/
def floatParse (s : String) : Option ℚ :=
  match s.data with
  | List.cons '-' rest => floatParseCore (-1) rest
  | cs => floatParseCore 1 cs

/-! ## AxisCommandCompiler (`convert_b_axis_to_manual_stepper` /
`ProcessWorker.run_klipper_conversion`) -/

/-- One input line of the Klipper conversion stage, as the code observes it:
`g1 b rest` is a stripped line starting with `"G1"` whose `B`-number field
(regex `\bB(-?\d+\.?\d*)`, always float-parseable) is `b`, and whose text
with the `B` and `A` number fields removed is `rest`; `other s` is any line
not starting with `"G1"`. -/
inductive KLine where
  | g1 (b : Option ℚ) (rest : String)
  | other (s : String)
deriving DecidableEq

/-- One output line of the Klipper conversion stage: `stepper v` renders as
`MANUAL_STEPPER STEPPER=b_stepper MOVE=v`, `g1 rest` is the cleaned motion
line, `other s` an untouched non-G1 line. -/
inductive KOut where
  | stepper (v : ℚ)
  | g1 (rest : String)
  | other (s : String)
deriving DecidableEq

/-- One iteration of the conversion loop, carrying `last_b_value`: on a G1
line with a `B` value that is the first seen or differs from the last
emitted one, a `MANUAL_STEPPER` command is appended immediately before the
cleaned line and `last_b_value` is updated. -/
def kStep (last : Option ℚ) : KLine → Option ℚ × List KOut
  | KLine.g1 none rest => (last, [KOut.g1 rest])
  | KLine.g1 (some b) rest =>
      if last = some b then (last, [KOut.g1 rest])
      else (some b, [KOut.stepper b, KOut.g1 rest])
  | KLine.other s => (last, [KOut.other s])

/-- The conversion loop over the remaining lines. -/
def kGo (last : Option ℚ) : List KLine → List KOut
  | [] => []
  | List.cons l ls =>
      let r := kStep last l
      r.2 ++ kGo r.1 ls

/-- `convert_b_axis_to_manual_stepper`: whole-file conversion, starting from
`last_b_value = None`. -/
def convert_b_axis_to_manual_stepper (lines : List KLine) : List KOut :=
  kGo none lines

/-- The `B` values carried by the G1 lines of the input, in order. -/
def bVals : List KLine → List ℚ
  | [] => []
  | List.cons (KLine.g1 (some b) _) ls => b :: bVals ls
  | List.cons _ ls => bVals ls

/-- The values of the `MANUAL_STEPPER` commands of the output, in order. -/
def stepperVals : List KOut → List ℚ
  | [] => []
  | List.cons (KOut.stepper v) os => v :: stepperVals os
  | List.cons _ os => stepperVals os

/-- Run-deduplication relative to a last emitted value; `destutterFrom none`
coincides with `List.destutter (· ≠ ·)`. -/
def destutterFrom (last : Option ℚ) : List ℚ → List ℚ
  | [] => []
  | List.cons b bs =>
      if last = some b then destutterFrom last bs
      else b :: destutterFrom (some b) bs

/-! ## BendTransformer (`ProcessWorker.run_bending`) -/

/-- Tagged per-line diagnostic events; the source emits them through
`self.log_signal.emit(...)`.  Each constructor carries the numeric values
interpolated into the corresponding message. -/
inductive Diag where
  | belowPlatform
  | unplausible (z : ℚ)
  | selfIntersection (z : ℚ)
  | angleWarning (angle z : ℚ)
  | splineTooShort (z : ℚ)
deriving DecidableEq

/-- The `Point2D` namedtuple. -/
structure Point2D where
  x : ℚ
  y : ℚ
deriving DecidableEq

/-- The `GCodeLine` namedtuple produced by `parse_gcode`: the raw regex
captures (strings, still unconverted) of the X, Y, Z, E, F fields, any of
which may be absent. -/
structure GCodeLine where
  x : Option String
  y : Option String
  z : Option String
  e : Option String
  f : Option String
deriving DecidableEq

/-- One raw input line of the bending pass, as the code observes it:
whether its first character is `;`, whether it contains the substrings
`"G91 "` / `"G90 "`, and the result of `parse_gcode` on it. -/
structure GLineRaw where
  isComment : Bool
  hasG91 : Bool
  hasG90 : Bool
  parsed : Option GCodeLine
deriving DecidableEq

/-- The mutable cursor of the bending pass (`last_position`, `current_z`,
`last_z`, `relative_mode`). -/
structure BendState where
  last_position : Point2D
  current_z : ℚ
  last_z : ℚ
  relative_mode : Bool
deriving DecidableEq

/-- Initial cursor of `run_bending` (lines 196-199 of the source). -/
def initState : BendState :=
  { last_position := ⟨0, 0⟩, current_z := 0, last_z := 0, relative_mode := false }

/-- One output line of the bending pass.  `raw l` is the input line written
verbatim; `layer dz f` renders as the block
`G91` / `G1 Z(dz)` (with ` F(f)` appended when `f` is present) / `G90` /
`M83`; `move g x y z a f e` is the argument tuple handed to `write_line`,
which renders it as `G(g) X(x) Y(y) Z(z) A0 B(a)[ E(e)][ F(f)]` with the
source's decimal formatting. -/
inductive OutLine where
  | raw (l : GLineRaw)
  | layer (dz : ℚ) (f : Option String)
  | move (g : ℕ) (x y z a : ℚ) (f : Option ℚ) (e : Option ℚ)
deriving DecidableEq

/-- Parameters of one bending run, as read before the line loop:
the abstract math library, the `CubicSpline` object, the control-point
lists `spline_x` and `spline_z`, the scalar parameters, and the
`spline_lookup_table` built before the loop. -/
structure BendCfg where
  M : MathLib
  spline : Spline
  spline_x : List ℚ
  spline_z : List ℚ
  layer_height : ℚ
  warning_angle : ℚ
  discretization_length : ℚ
  lookup : List ℚ

/-- `spline_x[0]`, the lateral origin of the spline. -/
def sx0 (cfg : BendCfg) : ℚ := cfg.spline_x.headD 0

/-- Construction of `spline_lookup_table`: starting from the running total
`acc`, append `acc + sqrt((spline(h) - spline(h - dL))^2 + dL^2)` for each
sample height `h` in `steps`. -/
def lookupGo (f g : ℚ → ℚ) (dL : ℚ) : ℚ → List ℚ → List ℚ
  | _, [] => []
  | acc, List.cons h rest =>
      let next := acc + g ((f h - f (h - dL)) ^ 2 + dL ^ 2)
      next :: lookupGo f g dL next rest

/-- `spline_lookup_table = [0.0]` followed by the accumulated arc-length
samples; `f` is `spline.eval`, `g` is `np.sqrt`, `steps` the heights
`np.arange(dL, spline_z[-1], dL)`. -/
def mkLookup (f g : ℚ → ℚ) (dL : ℚ) (steps : List ℚ) : List ℚ :=
  0 :: lookupGo f g dL 0 steps

/-- The index loop inside `on_spline_length`, carrying the running index
`i`: return `i * dL` at the first table entry `≥ z`, else fall through to
the warning and return `z` itself. -/
def splineLenGo (dL z : ℚ) (i : ℕ) : List ℚ → ℚ × List Diag
  | [] => (z, [Diag.splineTooShort z])
  | List.cons h rest =>
      if z ≤ h then ((i : ℚ) * dL, [])
      else splineLenGo dL z (i + 1) rest

/-- `on_spline_length(z_height)`: first sampled height whose cumulative arc
length reaches `z`, or `z` itself (with a warning) when the table is too
short. -/
def on_spline_length (lookup : List ℚ) (dL z : ℚ) : ℚ × List Diag :=
  splineLenGo dL z 0 lookup

/-- `corrected_z_height = on_spline_length(current_z)`. -/
def correctedZ (cfg : BendCfg) (z : ℚ) : ℚ :=
  (on_spline_length cfg.lookup cfg.discretization_length z).1

/-- The diagnostics emitted inside `on_spline_length(current_z)`. -/
def lookupDiags (cfg : BendCfg) (z : ℚ) : List Diag :=
  (on_spline_length cfg.lookup cfg.discretization_length z).2

/-- `get_normal_point(current_point, derivative, distance)`: offset the
point along the normal direction `arctan(derivative) + pi/2`. -/
def get_normal_point (M : MathLib) (p : Point2D) (derivative dist : ℚ) : Point2D :=
  let angle := M.arctan derivative + M.pi / 2
  ⟨p.x + dist * M.cos angle, p.y + dist * M.sin angle⟩

/-- `angle_spline_this_layer = arctan(spline(corrected_z_height, 1))`. -/
def angleThisLayer (cfg : BendCfg) (z : ℚ) : ℚ :=
  cfg.M.arctan (cfg.spline.deriv (correctedZ cfg z))

/-- `angle_last_layer = arctan(spline(corrected_z_height - layer_height, 1))`. -/
def angleLastLayer (cfg : BendCfg) (z : ℚ) : ℚ :=
  cfg.M.arctan (cfg.spline.deriv (correctedZ cfg z - cfg.layer_height))

/-- `dist_to_spline = midpoint_x - spline_x[0]` where
`midpoint_x = last_position.x + (current_position.x - last_position.x)/2`. -/
def distToSpline (cfg : BendCfg) (lastX qx : ℚ) : ℚ :=
  (lastX + (qx - lastX) / 2) - sx0 cfg

/-- `height_difference = sin(angle_this - angle_last) * dist_to_spline * -1`. -/
def heightDifference (cfg : BendCfg) (lastX z qx : ℚ) : ℚ :=
  cfg.M.sin (angleThisLayer cfg z - angleLastLayer cfg z) * distToSpline cfg lastX qx * (-1)

/-- `transformed_gcode = get_normal_point(Point2D(corrected, spline(corrected)),
spline(corrected, 1), current_position.x - spline_x[0])`. -/
def transformedGcode (cfg : BendCfg) (z qx : ℚ) : Point2D :=
  get_normal_point cfg.M ⟨correctedZ cfg z, cfg.spline.eval (correctedZ cfg z)⟩
    (cfg.spline.deriv (correctedZ cfg z)) (qx - sx0 cfg)

/-- The literal `57.2958` used at `b_axis = angle_spline_this_layer * 57.2958`. -/
def radToDegFactor : ℚ := 57.2958

/-- The diagnostics of a fully transformed X/Y move, in source order:
those of `on_spline_length`, the below-platform warning (`transformed.x ≤ 0`),
the self-intersection error (`layer_height + height_difference < 0`), and
the angle warning (`angle_this > warning_angle * pi / 180`). -/
def motionDiags (cfg : BendCfg) (lastX z qx : ℚ) : List Diag :=
  lookupDiags cfg z
    ++ (if (transformedGcode cfg z qx).x ≤ 0 then [Diag.belowPlatform] else [])
    ++ (if cfg.layer_height + heightDifference cfg lastX z qx < 0 then
          [Diag.selfIntersection z] else [])
    ++ (if angleThisLayer cfg z > cfg.warning_angle * cfg.M.pi / 180 then
          [Diag.angleWarning (angleThisLayer cfg z) z] else [])

/-- The rewritten move handed to `write_line`:
`write_line(output_file, 1, transformed.y, current_position.y, transformed.x,
b_axis, None, extrusion_amount)` with
`extrusion_amount = float(e) * ((layer_height + height_difference) / layer_height)`
when an E capture is present and `None` otherwise. -/
def motionMove (cfg : BendCfg) (lastX z qx qy : ℚ) (oe : Option ℚ) : OutLine :=
  OutLine.move 1 (transformedGcode cfg z qx).y qy (transformedGcode cfg z qx).x
    (angleThisLayer cfg z * radToDegFactor) none
    (oe.map (fun e => e * ((cfg.layer_height + heightDifference cfg lastX z qx) / cfg.layer_height)))

/-- `float` applied to the optional E capture: absent stays absent, a bad
capture raises `ValueError`. -/
def parseE : Option String → Except String (Option ℚ)
  | none => Except.ok none
  | some s =>
    match floatParse s with
    | some q => Except.ok (some q)
    | none => Except.error "ValueError"

/-- `float` applied to a capture that the control flow guarantees present
(the X and Y captures of a true X/Y move). -/
def parseReq : Option String → Except String ℚ
  | none => Except.error "ValueError"
  | some s =>
    match floatParse s with
    | some q => Except.ok q
    | none => Except.error "ValueError"

/-- `current_z = float(z)` when a Z capture is present (source line 224);
a bad capture raises `ValueError`. -/
def parseZUpdate (st : BendState) : Option String → Except String BendState
  | none => Except.ok st
  | some zs =>
    match floatParse zs with
    | some qz => Except.ok { st with current_z := qz }
    | none => Except.error "ValueError"

/-- The bend algorithm on a true X/Y move (source lines 237-278), given the
state with `current_z` already updated and the converted X/Y coordinates:
if `transformed.x < 0` or `|transformed.x - current_z| > 50`, warn and pass
the original line through (state otherwise untouched); otherwise convert the
E capture and emit the rewritten move, updating `last_position` and
`last_z`. -/
def bendMotion (cfg : BendCfg) (st : BendState) (l : GLineRaw) (qx qy : ℚ)
    (es : Option String) : Except String (BendState × List OutLine × List Diag) :=
  if (transformedGcode cfg st.current_z qx).x < 0 ∨
      |(transformedGcode cfg st.current_z qx).x - st.current_z| > 50 then
    Except.ok (st, [OutLine.raw l],
      lookupDiags cfg st.current_z
        ++ (if (transformedGcode cfg st.current_z qx).x ≤ 0 then [Diag.belowPlatform] else [])
        ++ [Diag.unplausible st.current_z])
  else
    match parseE es with
    | Except.error e => Except.error e
    | Except.ok oe =>
      Except.ok ({ st with last_position := ⟨qx, qy⟩, last_z := st.current_z },
        [motionMove cfg st.last_position.x st.current_z qx qy oe],
        motionDiags cfg st.last_position.x st.current_z qx)

/-- Handling of a line that matched the motion grammar (source lines
222-278): update `current_z` from the Z capture, take the layer-change
branch when the X or the Y capture is missing, pass through when X, Y and Z
are all missing, otherwise convert X and Y and run the bend algorithm. -/
def bendParsed (cfg : BendCfg) (st : BendState) (l : GLineRaw) (c : GCodeLine) :
    Except String (BendState × List OutLine × List Diag) :=
  match parseZUpdate st c.z with
  | Except.error e => Except.error e
  | Except.ok st1 =>
    if c.x = none ∨ c.y = none then
      if c.z ≠ none then
        Except.ok ({ st1 with last_z := st1.current_z },
          [OutLine.layer (st1.current_z - st1.last_z) c.f], [])
      else
        Except.ok (st1, [OutLine.raw l], [])
    else
      match parseReq c.x with
      | Except.error e => Except.error e
      | Except.ok qx =>
        match parseReq c.y with
        | Except.error e => Except.error e
        | Except.ok qy => bendMotion cfg st1 l qx qy c.e

/-- One iteration of the bending line loop (source lines 202-280), in
source order: comment pass-through, `G91 ` / `G90 ` mode toggles, relative
mode pass-through, then the parsed-line handling; an uncaught `ValueError`
from `float` is an `Except.error`. -/
def bendLine (cfg : BendCfg) (st : BendState) (l : GLineRaw) :
    Except String (BendState × List OutLine × List Diag) :=
  if l.isComment then Except.ok (st, [OutLine.raw l], [])
  else if l.hasG91 then Except.ok ({ st with relative_mode := true }, [OutLine.raw l], [])
  else if l.hasG90 then Except.ok ({ st with relative_mode := false }, [OutLine.raw l], [])
  else if st.relative_mode then Except.ok (st, [OutLine.raw l], [])
  else
    match l.parsed with
    | none => Except.ok (st, [OutLine.raw l], [])
    | some c => bendParsed cfg st l c

/-- The relative-mode flag after one line: changed only by the `G91 ` /
`G90 ` toggles, which a leading comment marker pre-empts. -/
def relModeAfter (st : BendState) (l : GLineRaw) : Bool :=
  if l.isComment then st.relative_mode
  else if l.hasG91 then true
  else if l.hasG90 then false
  else st.relative_mode

/-- Result of a whole bending pass: the written output lines, the emitted
diagnostics, the final cursor, and whether an exception escaped the line
loop to `ProcessWorker.run`'s handler (aborting the pass). -/
structure BendRun where
  outs : List OutLine
  diags : List Diag
  state : BendState
  aborted : Bool
deriving DecidableEq

/-- The bending line loop from a given cursor: an exception stops the pass
with the lines written so far. -/
def runBendingAux (cfg : BendCfg) (st : BendState) : List GLineRaw → BendRun
  | [] => ⟨[], [], st, false⟩
  | List.cons l ls =>
    match bendLine cfg st l with
    | Except.error _ => ⟨[], [], st, true⟩
    | Except.ok (st1, outs, ds) =>
      let r := runBendingAux cfg st1 ls
      ⟨outs ++ r.outs, ds ++ r.diags, r.state, r.aborted⟩

/-- `run_bending` on a whole file, from the initial cursor. -/
def runBending (cfg : BendCfg) (lines : List GLineRaw) : BendRun :=
  runBendingAux cfg initState lines

/-- Decidable test that an optional capture converts with `float` without
raising. -/
def optParses : Option String → Bool
  | none => true
  | some s => (floatParse s).isSome

/-! ## KinematicsTransformer (`ProcessWorker.run_ik_translation`) -/

/-- Link length `La = 28.4`. -/
def La : ℚ := 28.4

/-- Link length `Lb = 47.7`. -/
def Lb : ℚ := 47.7

/-- `func_x`: `max(x + sin(radians(a))*La + cos(radians(a))*sin(radians(b))*Lb, 0)`. -/
def func_x (M : MathLib) (x_val y_val z_val a_val b_val : ℚ) : ℚ :=
  max (x_val + M.sin (M.radians a_val) * La +
    M.cos (M.radians a_val) * M.sin (M.radians b_val) * Lb) 0

/-- `func_y`: `max(y - La + cos(radians(a))*La - sin(radians(a))*sin(radians(b))*Lb, 0)`. -/
def func_y (M : MathLib) (x_val y_val z_val a_val b_val : ℚ) : ℚ :=
  max (y_val - La + M.cos (M.radians a_val) * La -
    M.sin (M.radians a_val) * M.sin (M.radians b_val) * Lb) 0

/-- `func_z`: `max(z + cos(radians(b))*Lb - Lb, 0)`. -/
def func_z (M : MathLib) (x_val y_val z_val a_val b_val : ℚ) : ℚ :=
  max (z_val + M.cos (M.radians b_val) * Lb - Lb) 0

/-- One whitespace-separated token after the command word of an IK-stage
line: a recognized axis field carrying its converted number, or any other
token kept as text. -/
inductive IKPart where
  | X (v : ℚ)
  | Y (v : ℚ)
  | Z (v : ℚ)
  | A (v : ℚ)
  | B (v : ℚ)
  | other (s : String)
deriving DecidableEq

/-- One line of the IK stage: whether it starts with `"G"` or `"M"`, its
command word `head` (`parts[0]`, never rewritten), and the remaining
tokens. -/
structure IKLine where
  isGM : Bool
  head : String
  parts : List IKPart
deriving DecidableEq

/-- Extractors for the `elif parts[i].startswith(...)` chain. -/
def partX : IKPart → Option ℚ
  | IKPart.X v => some v
  | _ => none

def partY : IKPart → Option ℚ
  | IKPart.Y v => some v
  | _ => none

def partZ : IKPart → Option ℚ
  | IKPart.Z v => some v
  | _ => none

def partA : IKPart → Option ℚ
  | IKPart.A v => some v
  | _ => none

def partB : IKPart → Option ℚ
  | IKPart.B v => some v
  | _ => none

/-- The running reassignment `x_val = float(parts[i][1:])`: last occurrence
wins, absent fields default to `0`. -/
def lastVal (f : IKPart → Option ℚ) (parts : List IKPart) : ℚ :=
  parts.foldl (fun acc p => (f p).getD acc) 0

/-- Rewriting of the indexed X/Y/Z tokens with the values computed from the
whole line; A, B and unrecognized tokens are left as they were. -/
def rewriteParts (M : MathLib) (parts : List IKPart) : List IKPart :=
  let xv := lastVal partX parts
  let yv := lastVal partY parts
  let zv := lastVal partZ parts
  let av := lastVal partA parts
  let bv := lastVal partB parts
  parts.map (fun p =>
    match p with
    | IKPart.X _ => IKPart.X (func_x M xv yv zv av bv)
    | IKPart.Y _ => IKPart.Y (func_y M xv yv zv av bv)
    | IKPart.Z _ => IKPart.Z (func_z M xv yv zv av bv)
    | p => p)

/-- `recalculate(line)`: lines not starting with `"G"` or `"M"` are returned
unchanged, otherwise the X/Y/Z tokens are rewritten. -/
def recalculate (M : MathLib) (l : IKLine) : IKLine :=
  if l.isGM = false then l
  else { l with parts := rewriteParts M l.parts }

/-- The whole IK pass: every line is recalculated and written; the loop
emits no per-line diagnostics. -/
def runIK (M : MathLib) (lines : List IKLine) : List IKLine × List Diag :=
  (lines.map (recalculate M), [])

/-- The five axis letters the `elif parts[i].startswith(...)` chain tests,
in source order. -/
inductive IKAxis where
  | X
  | Y
  | Z
  | A
  | B
deriving DecidableEq

/-- One raw whitespace token after the command word of an IK-stage line, as
the code observes it.  `axis a conv` is a token whose first character is
the capital axis letter `a`; `conv` is the outcome of `float(parts[i][1:])`
on its remainder, `none` when that conversion raises (e.g. the token `Xmas`
of `M117 Xmas greeting` has remainder `mas` and `float("mas")` raises a
`ValueError`).  `plain s` is any token starting with some other character,
which the chain never converts.  `IKPart` above is the success-case
projection of this type, adequate for lines whose axis tokens all
convert. -/
inductive IKTok where
  | axis (a : IKAxis) (conv : Option ℚ)
  | plain (s : String)
deriving DecidableEq

/-- One raw line of the IK stage: whether it starts with `"G"` or `"M"`,
its command word `parts[0]`, and the remaining raw tokens. -/
structure IKRawLine where
  isGM : Bool
  head : String
  toks : List IKTok
deriving DecidableEq

/-- The running `x_val ... b_val` cells of `recalculate`, all initialised
to `0`. -/
structure IKVals where
  x : ℚ
  y : ℚ
  z : ℚ
  a : ℚ
  b : ℚ
deriving DecidableEq

/-- Reassignment of the cell selected by the token's axis letter. -/
def ikSet (vals : IKVals) (ax : IKAxis) (v : ℚ) : IKVals :=
  match ax with
  | IKAxis.X => { vals with x := v }
  | IKAxis.Y => { vals with y := v }
  | IKAxis.Z => { vals with z := v }
  | IKAxis.A => { vals with a := v }
  | IKAxis.B => { vals with b := v }

/-- The value-collection loop of `recalculate` (source lines 313-326) over
raw tokens: each axis-letter token converts its remainder with `float`
(raising aborts the loop), last occurrence wins, other tokens are
skipped. -/
def ikCollect : IKVals → List IKTok → Except String IKVals
  | vals, [] => Except.ok vals
  | vals, List.cons (IKTok.axis ax conv) rest =>
    match conv with
    | none => Except.error "ValueError"
    | some v => ikCollect (ikSet vals ax v) rest
  | vals, List.cons (IKTok.plain _) rest => ikCollect vals rest

/-- Decidable test that every axis-letter token of a line carries a
convertible remainder, so the collection loop cannot raise. -/
def ikToksOk : List IKTok → Bool
  | [] => true
  | List.cons (IKTok.axis _ none) _ => false
  | List.cons (IKTok.axis _ (some _)) rest => ikToksOk rest
  | List.cons (IKTok.plain _) rest => ikToksOk rest

/-- The index-rewriting loops of `recalculate` (source lines 328-335):
every X/Y/Z token is replaced by the axis letter followed by the
corresponding `func` of the collected values; A, B and plain tokens keep
their original text. -/
def ikRewrite (M : MathLib) (vals : IKVals) (toks : List IKTok) : List IKTok :=
  toks.map (fun t =>
    match t with
    | IKTok.axis IKAxis.X _ =>
        IKTok.axis IKAxis.X (some (func_x M vals.x vals.y vals.z vals.a vals.b))
    | IKTok.axis IKAxis.Y _ =>
        IKTok.axis IKAxis.Y (some (func_y M vals.x vals.y vals.z vals.a vals.b))
    | IKTok.axis IKAxis.Z _ =>
        IKTok.axis IKAxis.Z (some (func_z M vals.x vals.y vals.z vals.a vals.b))
    | t => t)

/-- `recalculate(line)` at the raw token level: lines not starting with
`"G"` or `"M"` are returned unchanged without any conversion; otherwise
the values are collected (a failed `float` raises) and the X/Y/Z tokens
rewritten. -/
def recalculateRaw (M : MathLib) (l : IKRawLine) : Except String IKRawLine :=
  if l.isGM = false then Except.ok l
  else
    match ikCollect { x := 0, y := 0, z := 0, a := 0, b := 0 } l.toks with
    | Except.error e => Except.error e
    | Except.ok vals => Except.ok { l with toks := ikRewrite M vals l.toks }

/-- The IK line loop (`run_ik_translation`, source lines 342-345): each
line is recalculated and written; an uncaught `ValueError` escapes to
`ProcessWorker.run`'s handler, aborting the pass with the lines written so
far. -/
def runIKRaw (M : MathLib) : List IKRawLine → List IKRawLine × Bool
  | [] => ([], false)
  | List.cons l ls =>
    match recalculateRaw M l with
    | Except.error _ => ([], true)
    | Except.ok l1 =>
      let r := runIKRaw M ls
      (l1 :: r.1, r.2)

/-! ## Concrete witness inputs -/

/-- Witness input for C7: a comment line. -/
def lineComment : GLineRaw := { isComment := true, hasG91 := false, hasG90 := false, parsed := none }

/-- Witness input for C7: a motion line met while in relative mode. -/
def lineRelMotion : GLineRaw :=
  { isComment := false, hasG91 := false, hasG90 := false,
    parsed := some { x := some "1", y := some "2", z := none, e := none, f := none } }

/-- Witness configuration with all external math calls instantiated by
zero functions. -/
def cfg0 : BendCfg :=
  { M := { sin := fun _ => 0, cos := fun _ => 0, arctan := fun _ => 0,
           sqrt := fun _ => 0, radians := fun _ => 0, pi := 0 },
    spline := { eval := fun _ => 0, deriv := fun _ => 0 },
    spline_x := [0], spline_z := [0, 10],
    layer_height := 1, warning_angle := 0, discretization_length := 1,
    lookup := [200] }

/-- Witness state sitting in relative mode. -/
def stRel : BendState :=
  { last_position := ⟨0, 0⟩, current_z := 3, last_z := 3, relative_mode := true }

/-- Witness input for C10: a motion line carrying X, Z and F but no Y. -/
def lineLayerXZ : GLineRaw :=
  { isComment := false, hasG91 := false, hasG90 := false,
    parsed := some { x := some "3", y := none, z := some "5", e := none, f := some "1200" } }

/-- Witness input shared by the bend-algorithm claims: an X/Y motion line. -/
def lineMotion : GLineRaw :=
  { isComment := false, hasG91 := false, hasG90 := false,
    parsed := some { x := some "4", y := some "0", z := none, e := none, f := none } }

/-- Witness state high above a flat spline (`current_z = 100`). -/
def stHigh : BendState :=
  { last_position := ⟨0, 0⟩, current_z := 100, last_z := 0, relative_mode := false }

/-- Counterexample configuration for C4: an identity-like math library and
spline derivative that make the unplausible-move check and the
self-intersection condition fire on the same move. -/
def cfgC4 : BendCfg :=
  { M := { sin := fun q => q, cos := fun _ => 0, arctan := fun q => q,
           sqrt := fun _ => 0, radians := fun _ => 0, pi := 0 },
    spline := { eval := fun _ => 0, deriv := fun q => q },
    spline_x := [0], spline_z := [0, 10],
    layer_height := 1, warning_angle := 0, discretization_length := 1,
    lookup := [200] }

/-- Witness configuration for the amended C4: same geometry as `cfgC4` but
queried at `current_z = 0`, where the unplausible-move check does not fire
while the self-intersection condition still does. -/
def cfgSelf : BendCfg :=
  { M := { sin := fun q => q, cos := fun _ => 0, arctan := fun q => q,
           sqrt := fun _ => 0, radians := fun _ => 0, pi := 0 },
    spline := { eval := fun _ => 0, deriv := fun q => q },
    spline_x := [0], spline_z := [0, 10],
    layer_height := 1, warning_angle := 0, discretization_length := 1,
    lookup := [0] }

/-- Counterexample configuration for C8: a first-layer query at
`correctedHeight - layerHeight = -1`, below the spline domain floor
`height[0] = 0`. -/
def cfg8 : BendCfg :=
  { M := { sin := fun _ => 0, cos := fun _ => 1, arctan := fun _ => 0,
           sqrt := fun _ => 0, radians := fun _ => 0, pi := 0 },
    spline := { eval := fun _ => 0, deriv := fun _ => 0 },
    spline_x := [0], spline_z := [0, 10],
    layer_height := 1, warning_angle := 0, discretization_length := 1,
    lookup := [0, 2] }

/-- Counterexample input for C9: `G1 X. Y5` — the regex grammar matches it
(`.` is a legal `[0-9.]{1,15}` capture) but `float(".")` raises. -/
def lineBadX : GLineRaw :=
  { isComment := false, hasG91 := false, hasG90 := false,
    parsed := some { x := some ".", y := some "5", z := none, e := none, f := none } }

/-- Witness input for C9: a line that does not match the motion grammar. -/
def lineNoMatch : GLineRaw :=
  { isComment := false, hasG91 := false, hasG90 := false, parsed := none }

/-- Witness input for C9: a fully parseable motion line. -/
def lineAllFields : GLineRaw :=
  { isComment := false, hasG91 := false, hasG90 := false,
    parsed := some { x := some "1", y := some "2", z := some "3", e := some "0.5", f := some "900" } }

/-- Counterexample input for C9 in the IK stage: `M117 Xmas greeting` —
it does not match the motion grammar, but it starts with `"M"`, its token
`Xmas` starts with `X`, and `float("mas")` raises. -/
def lineM117 : IKRawLine :=
  { isGM := true, head := "M117", toks := [IKTok.axis IKAxis.X none, IKTok.plain "greeting"] }

/-- Witness input for C9 in the IK stage: a line not starting with `"G"`
or `"M"`, passed through without any conversion. -/
def lineIKPlain : IKRawLine :=
  { isGM := false, head := ";setup", toks := [IKTok.plain "note"] }

/-- Witness input for C9 in the IK stage: a motion line whose axis tokens
all carry convertible numbers. -/
def lineIKGood : IKRawLine :=
  { isGM := true, head := "G1",
    toks := [IKTok.axis IKAxis.X (some 5), IKTok.axis IKAxis.B (some 2), IKTok.plain "F1200"] }

/-- Witness math library for C6: `sin` constantly `0`, `cos` constantly `1`. -/
def M6 : MathLib :=
  { sin := fun _ => 0, cos := fun _ => 1, arctan := fun _ => 0,
    sqrt := fun _ => 0, radians := fun _ => 0, pi := 0 }

theorem kGo_stepperVals (lines : List KLine) :
    ∀ last : Option ℚ, stepperVals (kGo last lines) = destutterFrom last (bVals lines) := by
  induction lines with
  | nil => intro last; rfl
  | cons l ls ih =>
    intro last
    cases l with
    | g1 b rest =>
      cases b with
      | none => simp [kGo, kStep, stepperVals, bVals, ih]
      | some v =>
        by_cases h : last = some v <;>
          simp [kGo, kStep, stepperVals, bVals, h, ih, destutterFrom]
    | other s => simp [kGo, kStep, stepperVals, bVals, ih]

theorem destutter_tail_eq_destutterFrom (bs : List ℚ) :
    ∀ a : ℚ, List.destutter' (fun x y => x ≠ y) a bs = a :: destutterFrom (some a) bs := by
  induction bs with
  | nil => intro a; rfl
  | cons b bs ih =>
    intro a
    by_cases h : a = b <;> simp [destutterFrom, List.destutter', h, ih]

theorem destutterFrom_none (bs : List ℚ) :
    destutterFrom none bs = List.destutter (fun x y => x ≠ y) bs := by
  cases bs with
  | nil => rfl
  | cons b bs =>
    simp [destutterFrom, List.destutter, destutter_tail_eq_destutterFrom]

/-- C1: a `MANUAL_STEPPER` command is emitted exactly when a G1 line carries
a `B` value that is the first seen or differs from the last emitted value,
immediately before the cleaned motion line, so the stepper commands are the
run-deduplication of the input `B` values; in particular input rotations
`[5, 5, 5, 10, 10, 5]` yield stepper commands `[5, 10, 5]`. -/
theorem claim_c1_stepper_dedup :
    (∀ lines : List KLine,
        stepperVals (convert_b_axis_to_manual_stepper lines) =
          List.destutter (fun x y => x ≠ y) (bVals lines))
    ∧ (∀ (last : Option ℚ) (b : ℚ) (rest : String), ¬ last = some b →
        kStep last (KLine.g1 (some b) rest) = (some b, [KOut.stepper b, KOut.g1 rest]))
    ∧ (∀ (last : Option ℚ) (b : ℚ) (rest : String), last = some b →
        kStep last (KLine.g1 (some b) rest) = (last, [KOut.g1 rest]))
    ∧ stepperVals (convert_b_axis_to_manual_stepper
        [KLine.g1 (some 5) "", KLine.g1 (some 5) "", KLine.g1 (some 5) "",
         KLine.g1 (some 10) "", KLine.g1 (some 10) "", KLine.g1 (some 5) ""]) = [5, 10, 5] := by
  refine ⟨?_, ?_, ?_, ?_⟩
  · intro lines
    rw [convert_b_axis_to_manual_stepper, kGo_stepperVals, destutterFrom_none]
  · intro last b rest h
    simp [kStep, h]
  · intro last b rest h
    simp [kStep, h]
  · decide

/-- Witness for C1 at concrete inputs: a fresh `B` value emits a stepper
command right before the cleaned line, a repeated one does not. -/
theorem claim_c1_witness :
    kStep none (KLine.g1 (some 5) "x") = (some 5, [KOut.stepper 5, KOut.g1 "x"])
    ∧ kStep (some 5) (KLine.g1 (some 5) "x") = (some 5, [KOut.g1 "x"]) :=
  ⟨claim_c1_stepper_dedup.2.1 none 5 "x" (by decide),
   claim_c1_stepper_dedup.2.2.1 (some 5) 5 "x" rfl⟩

/-- C7: a comment line is copied verbatim with no state change, and any
line processed while the pass is in relative mode is copied verbatim with
no state change other than the mode flag set by the `G91 ` / `G90 ` toggle
lines themselves. -/
theorem claim_c7_passthrough (cfg : BendCfg) (st : BendState) (l : GLineRaw) :
    (l.isComment = true → bendLine cfg st l = Except.ok (st, [OutLine.raw l], []))
    ∧ (st.relative_mode = true →
        bendLine cfg st l =
          Except.ok ({ st with relative_mode := relModeAfter st l }, [OutLine.raw l], [])) := by
  constructor
  · intro h
    simp [bendLine, h]
  · intro h
    obtain ⟨lp, cz, lz, rm⟩ := st
    subst h
    by_cases hc : l.isComment = true
    · simp [bendLine, relModeAfter, hc]
    · by_cases h91 : l.hasG91 = true
      · simp [bendLine, relModeAfter, hc, h91]
      · by_cases h90 : l.hasG90 = true
        · simp [bendLine, relModeAfter, hc, h91, h90]
        · simp [bendLine, relModeAfter, hc, h91, h90]

/-- Witness for C7: a concrete comment line and a concrete motion line in
relative mode both pass through verbatim. -/
theorem claim_c7_witness :
    bendLine cfg0 initState lineComment = Except.ok (initState, [OutLine.raw lineComment], [])
    ∧ bendLine cfg0 stRel lineRelMotion =
        Except.ok ({ stRel with relative_mode := relModeAfter stRel lineRelMotion },
          [OutLine.raw lineRelMotion], []) :=
  ⟨(claim_c7_passthrough cfg0 initState lineComment).1 rfl,
   (claim_c7_passthrough cfg0 stRel lineRelMotion).2 rfl⟩

/-- C10: in absolute mode, a parsed motion line lacking an X capture or a Y
capture while carrying a Z capture takes the layer-change branch: it emits
the `G91` / `G1 Z(current_z - last_z)` (with the raw F capture appended
when present) / `G90` / `M83` block, discards any X or Y coordinate on the
line, and updates `last_z` to `current_z`. -/
theorem claim_c10_layer_change (cfg : BendCfg) (st : BendState) (l : GLineRaw)
    (c : GCodeLine) (zs : String) (qz : ℚ)
    (h1 : l.isComment = false) (h2 : l.hasG91 = false) (h3 : l.hasG90 = false)
    (h4 : st.relative_mode = false) (h5 : l.parsed = some c)
    (h6 : c.x = none ∨ c.y = none) (h7 : c.z = some zs) (h8 : floatParse zs = some qz) :
    bendLine cfg st l =
      Except.ok ({ st with current_z := qz, last_z := qz },
        [OutLine.layer (qz - st.last_z) c.f], []) := by
  simp [bendLine, h1, h2, h3, h4, h5, bendParsed, h7, parseZUpdate, h8, h6]

/-- Witness for C10: the X-and-Z line above takes the layer-change branch,
its X coordinate is discarded, and `last_z` becomes `current_z = 5`. -/
theorem claim_c10_witness :
    bendLine cfg0 initState lineLayerXZ =
      Except.ok ({ initState with current_z := 5, last_z := 5 },
        [OutLine.layer (5 - initState.last_z) (some "1200")], []) :=
  claim_c10_layer_change cfg0 initState lineLayerXZ
    { x := some "3", y := none, z := some "5", e := none, f := some "1200" }
    "5" 5 rfl rfl rfl rfl rfl (Or.inr rfl) rfl (by decide)

theorem bendMotion_emit (cfg : BendCfg) (st : BendState) (l : GLineRaw) (qx qy : ℚ)
    (es : Option String) (oe : Option ℚ)
    (hnp : ¬ ((transformedGcode cfg st.current_z qx).x < 0 ∨
        |(transformedGcode cfg st.current_z qx).x - st.current_z| > 50))
    (hes : parseE es = Except.ok oe) :
    bendMotion cfg st l qx qy es =
      Except.ok ({ st with last_position := ⟨qx, qy⟩, last_z := st.current_z },
        [motionMove cfg st.last_position.x st.current_z qx qy oe],
        motionDiags cfg st.last_position.x st.current_z qx) := by
  simp only [bendMotion, if_neg hnp, hes]

theorem heightDifference_eq_zero (cfg : BendCfg) (lastX z qx : ℚ)
    (hder : cfg.spline.deriv (correctedZ cfg z) =
      cfg.spline.deriv (correctedZ cfg z - cfg.layer_height))
    (hsin : cfg.M.sin 0 = 0) :
    heightDifference cfg lastX z qx = 0 := by
  unfold heightDifference angleThisLayer angleLastLayer
  rw [hder, sub_self, hsin, zero_mul, zero_mul]

/-- C2: whenever the computed transformed depth is negative, or more
generally whenever `transformed.x < 0` or `|transformed.x - current_z| > 50`,
the bend algorithm emits the unplausible-move warning and writes the
original input line unchanged; the transformed coordinates are never
written for such a move. -/
theorem claim_c2_unplausible_passthrough (cfg : BendCfg) (st : BendState) (l : GLineRaw)
    (qx qy : ℚ) (es : Option String)
    (h : (transformedGcode cfg st.current_z qx).x < 0 ∨
        |(transformedGcode cfg st.current_z qx).x - st.current_z| > 50) :
    bendMotion cfg st l qx qy es =
      Except.ok (st, [OutLine.raw l],
        lookupDiags cfg st.current_z
          ++ (if (transformedGcode cfg st.current_z qx).x ≤ 0 then [Diag.belowPlatform] else [])
          ++ [Diag.unplausible st.current_z]) := by
  simp only [bendMotion, if_pos h]

/-- Witness for C2: over a flat spline, a move computed at depth `0` while
`current_z = 100` trips the unplausible-move check and passes through. -/
theorem claim_c2_witness :
    bendMotion cfg0 stHigh lineMotion 4 0 none =
      Except.ok (stHigh, [OutLine.raw lineMotion],
        lookupDiags cfg0 stHigh.current_z
          ++ (if (transformedGcode cfg0 stHigh.current_z 4).x ≤ 0 then [Diag.belowPlatform] else [])
          ++ [Diag.unplausible stHigh.current_z]) :=
  claim_c2_unplausible_passthrough cfg0 stHigh lineMotion 4 0 none (by
    norm_num [transformedGcode, get_normal_point, correctedZ, on_spline_length, splineLenGo,
      sx0, cfg0, stHigh])

/-- C4, counterexample: a concrete move on which the self-intersection
condition `(layer_height + height_difference) < 0` holds, yet the
unplausible-move check passes the line through first, so no
self-intersection Error is emitted and no transformed move is written —
the checks are not independent, contradicting the claim. -/
theorem claim_c4_counterexample :
    cfgC4.layer_height + heightDifference cfgC4 stHigh.last_position.x stHigh.current_z 4 < 0
    ∧ bendMotion cfgC4 stHigh lineMotion 4 0 none =
        Except.ok (stHigh, [OutLine.raw lineMotion],
          [Diag.belowPlatform, Diag.unplausible 100])
    ∧ Diag.selfIntersection 100 ∉ [Diag.belowPlatform, Diag.unplausible 100] := by
  refine ⟨?_, ?_, by decide⟩
  · norm_num [heightDifference, angleThisLayer, angleLastLayer, correctedZ, on_spline_length,
      splineLenGo, distToSpline, sx0, cfgC4, stHigh]
  · norm_num [bendMotion, lookupDiags, transformedGcode, get_normal_point, correctedZ,
      on_spline_length, splineLenGo, sx0, cfgC4, stHigh]

/-- C4, amended: when the unplausible-move check does not fire, a move with
`(layer_height + height_difference) < 0` gets the self-intersection Error
diagnostic while the transformed move is still emitted (detection only, no
correction); when the unplausible-move check fires first, the line is
passed through and the self-intersection check is skipped. -/
theorem claim_c4_selfintersection_detect_only (cfg : BendCfg) (st : BendState) (l : GLineRaw)
    (qx qy : ℚ) (es : Option String) (oe : Option ℚ)
    (hnp : ¬ ((transformedGcode cfg st.current_z qx).x < 0 ∨
        |(transformedGcode cfg st.current_z qx).x - st.current_z| > 50))
    (hes : parseE es = Except.ok oe)
    (hsi : cfg.layer_height + heightDifference cfg st.last_position.x st.current_z qx < 0) :
    bendMotion cfg st l qx qy es =
      Except.ok ({ st with last_position := ⟨qx, qy⟩, last_z := st.current_z },
        [motionMove cfg st.last_position.x st.current_z qx qy oe],
        motionDiags cfg st.last_position.x st.current_z qx)
    ∧ Diag.selfIntersection st.current_z ∈ motionDiags cfg st.last_position.x st.current_z qx := by
  refine ⟨bendMotion_emit cfg st l qx qy es oe hnp hes, ?_⟩
  simp [motionDiags, if_pos hsi]

/-- Witness for the amended C4: a concrete move with
`layer_height + height_difference = -1 < 0` that passes the plausibility
gate; the move is emitted and the Error diagnostic is present. -/
theorem claim_c4_witness :
    bendMotion cfgSelf initState lineMotion 4 0 none =
      Except.ok ({ initState with last_position := ⟨4, 0⟩, last_z := initState.current_z },
        [motionMove cfgSelf initState.last_position.x initState.current_z 4 0 none],
        motionDiags cfgSelf initState.last_position.x initState.current_z 4)
    ∧ Diag.selfIntersection initState.current_z ∈
        motionDiags cfgSelf initState.last_position.x initState.current_z 4 :=
  claim_c4_selfintersection_detect_only cfgSelf initState lineMotion 4 0 none none
    (by norm_num [transformedGcode, get_normal_point, correctedZ, on_spline_length, splineLenGo,
      sx0, cfgSelf, initState])
    rfl
    (by norm_num [heightDifference, angleThisLayer, angleLastLayer, correctedZ, on_spline_length,
      splineLenGo, distToSpline, sx0, cfgSelf, initState])

/-- C5: a transformed X/Y move carrying an E capture is emitted with
extrusion `float(e) * ((layer_height + height_difference) / layer_height)`,
a move without an E capture is emitted without one (the `Option.map` form
covers both); and when the spline derivative is locally constant
(zero-curvature region, e.g. control points `offset=[0,10]`,
`height=[0,10]`) the height difference is `0` and, for nonzero layer height
(e.g. `layer_height = 1`), the scaling factor is exactly `1`. -/
theorem claim_c5_extrusion_scaling (cfg : BendCfg) (st : BendState) (l : GLineRaw)
    (qx qy : ℚ) (es : Option String) (oe : Option ℚ)
    (hnp : ¬ ((transformedGcode cfg st.current_z qx).x < 0 ∨
        |(transformedGcode cfg st.current_z qx).x - st.current_z| > 50))
    (hes : parseE es = Except.ok oe) :
    bendMotion cfg st l qx qy es =
      Except.ok ({ st with last_position := ⟨qx, qy⟩, last_z := st.current_z },
        [OutLine.move 1 (transformedGcode cfg st.current_z qx).y qy
          (transformedGcode cfg st.current_z qx).x
          (angleThisLayer cfg st.current_z * radToDegFactor) none
          (oe.map (fun e => e * ((cfg.layer_height +
            heightDifference cfg st.last_position.x st.current_z qx) / cfg.layer_height)))],
        motionDiags cfg st.last_position.x st.current_z qx)
    ∧ (cfg.spline.deriv (correctedZ cfg st.current_z) =
          cfg.spline.deriv (correctedZ cfg st.current_z - cfg.layer_height) →
        cfg.M.sin 0 = 0 →
        heightDifference cfg st.last_position.x st.current_z qx = 0)
    ∧ (cfg.spline.deriv (correctedZ cfg st.current_z) =
          cfg.spline.deriv (correctedZ cfg st.current_z - cfg.layer_height) →
        cfg.M.sin 0 = 0 → cfg.layer_height ≠ 0 →
        (cfg.layer_height + heightDifference cfg st.last_position.x st.current_z qx) /
          cfg.layer_height = 1) := by
  refine ⟨bendMotion_emit cfg st l qx qy es oe hnp hes, ?_, ?_⟩
  · intro hder hsin
    exact heightDifference_eq_zero cfg st.last_position.x st.current_z qx hder hsin
  · intro hder hsin hlh
    rw [heightDifference_eq_zero cfg st.last_position.x st.current_z qx hder hsin, add_zero,
      div_self hlh]

/-- Witness for C5: a concrete move with `E` capture `"2"` over a flat
spline; the height difference is `0` and the scaling factor is `1`. -/
theorem claim_c5_witness :
    bendMotion cfg0 initState lineMotion 4 7 (some "2") =
      Except.ok ({ initState with last_position := ⟨4, 7⟩, last_z := initState.current_z },
        [OutLine.move 1 (transformedGcode cfg0 initState.current_z 4).y 7
          (transformedGcode cfg0 initState.current_z 4).x
          (angleThisLayer cfg0 initState.current_z * radToDegFactor) none
          ((some (2:ℚ)).map (fun e => e * ((cfg0.layer_height +
            heightDifference cfg0 initState.last_position.x initState.current_z 4) /
              cfg0.layer_height)))],
        motionDiags cfg0 initState.last_position.x initState.current_z 4)
    ∧ heightDifference cfg0 initState.last_position.x initState.current_z 4 = 0
    ∧ (cfg0.layer_height + heightDifference cfg0 initState.last_position.x initState.current_z 4) /
        cfg0.layer_height = 1 := by
  have h := claim_c5_extrusion_scaling cfg0 initState lineMotion 4 7 (some "2") (some 2)
    (by norm_num [transformedGcode, get_normal_point, correctedZ, on_spline_length, splineLenGo,
      sx0, cfg0, initState])
    (by rfl)
  exact ⟨h.1, h.2.1 rfl rfl, h.2.2 rfl rfl (by norm_num [cfg0])⟩

/-- C8, counterexample: on the first layer the bend algorithm queries the
spline derivative at `correctedHeight - layerHeight = -1`, below the domain
floor `height[0] = 0`, and instead of failing with a DomainError the move
is transformed and emitted with no diagnostic at all — the spline is
queried outside `[height[0], height[-1]]` without any domain error. -/
theorem claim_c8_counterexample :
    correctedZ cfg8 initState.current_z - cfg8.layer_height < cfg8.spline_z.headD 0
    ∧ bendMotion cfg8 initState lineMotion 3 0 none =
        Except.ok ({ last_position := ⟨3, 0⟩, current_z := 0, last_z := 0, relative_mode := false },
          [OutLine.move 1 0 0 3 0 none none], []) := by
  constructor
  · norm_num [correctedZ, on_spline_length, splineLenGo, cfg8, initState]
  · norm_num [bendMotion, motionMove, motionDiags, lookupDiags, transformedGcode,
      get_normal_point, angleThisLayer, angleLastLayer, heightDifference, distToSpline,
      correctedZ, on_spline_length, splineLenGo, sx0, radToDegFactor, parseE, cfg8, initState]

/-- C8, amended: the spline model is total (scipy extrapolates silently
outside the control-point range), so even when the bend algorithm's query
at `correctedHeight - layerHeight` falls below `height[0]`, the move is
processed normally: no domain error, no abort. -/
theorem claim_c8_extrapolated_query (cfg : BendCfg) (st : BendState) (l : GLineRaw) (qx qy : ℚ)
    (hdom : correctedZ cfg st.current_z - cfg.layer_height < cfg.spline_z.headD 0)
    (hnp : ¬ ((transformedGcode cfg st.current_z qx).x < 0 ∨
        |(transformedGcode cfg st.current_z qx).x - st.current_z| > 50)) :
    bendMotion cfg st l qx qy none =
      Except.ok ({ st with last_position := ⟨qx, qy⟩, last_z := st.current_z },
        [motionMove cfg st.last_position.x st.current_z qx qy none],
        motionDiags cfg st.last_position.x st.current_z qx) :=
  bendMotion_emit cfg st l qx qy none none hnp rfl

/-- Witness for the amended C8: the concrete first-layer move above,
processed without error despite the below-domain derivative query. -/
theorem claim_c8_witness :
    bendMotion cfg8 initState lineMotion 3 5 none =
      Except.ok ({ initState with last_position := ⟨3, 5⟩, last_z := initState.current_z },
        [motionMove cfg8 initState.last_position.x initState.current_z 3 5 none],
        motionDiags cfg8 initState.last_position.x initState.current_z 3) :=
  claim_c8_extrapolated_query cfg8 initState lineMotion 3 5
    (by norm_num [correctedZ, on_spline_length, splineLenGo, cfg8, initState])
    (by norm_num [transformedGcode, get_normal_point, correctedZ, on_spline_length, splineLenGo,
      sx0, cfg8, initState])

theorem parseE_ok_of_optParses (o : Option String) (h : optParses o = true) :
    ∃ oq, parseE o = Except.ok oq := by
  cases o with
  | none => exact ⟨none, rfl⟩
  | some s =>
    simp only [optParses] at h
    obtain ⟨q, hq⟩ := Option.isSome_iff_exists.mp h
    exact ⟨some q, by simp [parseE, hq]⟩

theorem parseReq_ok_of_optParses (s : String) (h : optParses (some s) = true) :
    ∃ q, parseReq (some s) = Except.ok q := by
  simp only [optParses] at h
  obtain ⟨q, hq⟩ := Option.isSome_iff_exists.mp h
  exact ⟨q, by simp [parseReq, hq]⟩

theorem parseZUpdate_ok_of_optParses (st : BendState) (o : Option String)
    (h : optParses o = true) : ∃ st1, parseZUpdate st o = Except.ok st1 := by
  cases o with
  | none => exact ⟨st, rfl⟩
  | some zs =>
    simp only [optParses] at h
    obtain ⟨q, hq⟩ := Option.isSome_iff_exists.mp h
    refine ⟨{ st with current_z := q }, ?_⟩
    simp [parseZUpdate, hq]

theorem bendMotion_total (cfg : BendCfg) (st : BendState) (l : GLineRaw) (qx qy : ℚ)
    (es : Option String) (h : optParses es = true) :
    ∃ r, bendMotion cfg st l qx qy es = Except.ok r := by
  by_cases hc : (transformedGcode cfg st.current_z qx).x < 0 ∨
      |(transformedGcode cfg st.current_z qx).x - st.current_z| > 50
  · refine ⟨(st, [OutLine.raw l],
      lookupDiags cfg st.current_z
        ++ (if (transformedGcode cfg st.current_z qx).x ≤ 0 then [Diag.belowPlatform] else [])
        ++ [Diag.unplausible st.current_z]), ?_⟩
    simp only [bendMotion, if_pos hc]
  · obtain ⟨oq, hoq⟩ := parseE_ok_of_optParses es h
    refine ⟨({ st with last_position := ⟨qx, qy⟩, last_z := st.current_z },
      [motionMove cfg st.last_position.x st.current_z qx qy oq],
      motionDiags cfg st.last_position.x st.current_z qx), ?_⟩
    simp only [bendMotion, if_neg hc, hoq]

theorem ikCollect_ok_of_toksOk (toks : List IKTok) :
    ∀ vals : IKVals, ikToksOk toks = true → ∃ r, ikCollect vals toks = Except.ok r := by
  induction toks with
  | nil => intro vals _; exact ⟨vals, rfl⟩
  | cons t rest ih =>
    intro vals h
    cases t with
    | axis ax conv =>
      cases conv with
      | none => simp [ikToksOk] at h
      | some v =>
        obtain ⟨r, hr⟩ := ih (ikSet vals ax v) (by simpa [ikToksOk] using h)
        exact ⟨r, by simpa [ikCollect] using hr⟩
    | plain s =>
      obtain ⟨r, hr⟩ := ih vals (by simpa [ikToksOk] using h)
      exact ⟨r, by simpa [ikCollect] using hr⟩

/-- C9, counterexample: two per-line problems that abort a pass through an
uncaught exception.  In the bending stage, `G1 X. Y5` matches the motion
grammar (`.` is a legal `[0-9.]{1,15}` capture) and `float(".")` raises,
aborting the pass.  In the IK stage, `M117 Xmas greeting` does not match
the motion grammar at all, yet it starts with `"M"`, its token `Xmas`
starts with `X`, and `float("mas")` raises, aborting that pass too — so an
unmatched line is not always a pass-through. -/
theorem claim_c9_counterexample :
    (runBending cfg0 [lineBadX]).aborted = true
    ∧ (runIKRaw M6 [lineM117]).2 = true := by
  constructor
  · decide
  · decide

/-- C9, amended, per stage.  Bending: a line that does not match the
motion grammar is passed through verbatim, never a thrown exception, and a
parsed motion line all of whose regex captures convert with `float` is
processed without an exception (while `G1 X. Y5` still aborts).  Klipper
conversion: a non-G1 line is passed through and the stage never raises.
IK: a line not starting with `"G"` or `"M"` is passed through without any
conversion, and a G/M line whose axis-letter tokens all carry convertible
numbers is processed without an exception (while `M117 Xmas greeting`,
unmatched by the motion grammar, still aborts). -/
theorem claim_c9_no_abort_amended (cfg : BendCfg) (st : BendState) (l : GLineRaw) :
    (l.isComment = false → l.hasG91 = false → l.hasG90 = false → st.relative_mode = false →
      l.parsed = none → bendLine cfg st l = Except.ok (st, [OutLine.raw l], []))
    ∧ (∀ c : GCodeLine, l.parsed = some c → optParses c.x = true → optParses c.y = true →
        optParses c.z = true → optParses c.e = true →
        ∃ r, bendLine cfg st l = Except.ok r)
    ∧ (∀ (last : Option ℚ) (s : String), kStep last (KLine.other s) = (last, [KOut.other s]))
    ∧ (∀ (M : MathLib) (lI : IKRawLine), lI.isGM = false →
        recalculateRaw M lI = Except.ok lI)
    ∧ (∀ (M : MathLib) (lI : IKRawLine), ikToksOk lI.toks = true →
        ∃ r, recalculateRaw M lI = Except.ok r) := by
  refine ⟨?_, ?_, ?_, ?_, ?_⟩
  · intro h1 h2 h3 h4 h5
    simp [bendLine, h1, h2, h3, h4, h5]
  · intro c hc hx hy hz he
    by_cases h1 : l.isComment = true
    · exact ⟨(st, [OutLine.raw l], []), by simp [bendLine, h1]⟩
    by_cases h2 : l.hasG91 = true
    · exact ⟨({ st with relative_mode := true }, [OutLine.raw l], []),
        by simp [bendLine, h1, h2]⟩
    by_cases h3 : l.hasG90 = true
    · exact ⟨({ st with relative_mode := false }, [OutLine.raw l], []),
        by simp [bendLine, h1, h2, h3]⟩
    by_cases h4 : st.relative_mode = true
    · exact ⟨(st, [OutLine.raw l], []), by simp [bendLine, h1, h2, h3, h4]⟩
    obtain ⟨st1, hst1⟩ := parseZUpdate_ok_of_optParses st c.z hz
    have hbl : bendLine cfg st l = bendParsed cfg st l c := by
      simp [bendLine, h1, h2, h3, h4, hc]
    by_cases hxy : c.x = none ∨ c.y = none
    · by_cases hzn : c.z = none
      · refine ⟨(st1, [OutLine.raw l], []), ?_⟩
        rw [hbl]
        simp only [bendParsed, hst1]
        rw [if_pos hxy, if_neg (by simp [hzn])]
      · refine ⟨({ st1 with last_z := st1.current_z },
          [OutLine.layer (st1.current_z - st1.last_z) c.f], []), ?_⟩
        rw [hbl]
        simp only [bendParsed, hst1]
        rw [if_pos hxy, if_pos hzn]
    · push_neg at hxy
      obtain ⟨hxn, hyn⟩ := hxy
      obtain ⟨xs, hxs⟩ := Option.ne_none_iff_exists'.mp hxn
      obtain ⟨ys, hys⟩ := Option.ne_none_iff_exists'.mp hyn
      obtain ⟨qx, hqx⟩ := parseReq_ok_of_optParses xs (by rw [← hxs]; exact hx)
      obtain ⟨qy, hqy⟩ := parseReq_ok_of_optParses ys (by rw [← hys]; exact hy)
      obtain ⟨r, hr⟩ := bendMotion_total cfg st1 l qx qy c.e he
      refine ⟨r, ?_⟩
      rw [hbl]
      simp only [bendParsed, hst1]
      rw [if_neg (by push_neg; exact ⟨hxn, hyn⟩), hxs, hys, hqx, hqy]
      exact hr
  · intro last s
    rfl
  · intro M lI h
    simp [recalculateRaw, h]
  · intro M lI h
    by_cases hgm : lI.isGM = false
    · exact ⟨lI, by simp [recalculateRaw, hgm]⟩
    · obtain ⟨vals, hv⟩ :=
        ikCollect_ok_of_toksOk lI.toks { x := 0, y := 0, z := 0, a := 0, b := 0 } h
      refine ⟨{ lI with toks := ikRewrite M vals lI.toks }, ?_⟩
      rw [recalculateRaw, if_neg hgm, hv]

/-- Witness for the amended C9, one concrete input per conjunct: an
unmatched bending line passes through, a fully parseable motion line is
processed, a non-G1 Klipper line passes through, a non-G/M IK line passes
through, and an IK line with convertible axis tokens is processed. -/
theorem claim_c9_witness :
    bendLine cfg0 initState lineNoMatch = Except.ok (initState, [OutLine.raw lineNoMatch], [])
    ∧ (∃ r, bendLine cfg0 initState lineAllFields = Except.ok r)
    ∧ kStep none (KLine.other "; layer 1") = (none, [KOut.other "; layer 1"])
    ∧ recalculateRaw M6 lineIKPlain = Except.ok lineIKPlain
    ∧ (∃ r, recalculateRaw M6 lineIKGood = Except.ok r) :=
  ⟨(claim_c9_no_abort_amended cfg0 initState lineNoMatch).1 rfl rfl rfl rfl rfl,
   (claim_c9_no_abort_amended cfg0 initState lineAllFields).2.1
     { x := some "1", y := some "2", z := some "3", e := some "0.5", f := some "900" }
     rfl (by rfl) (by rfl) (by rfl) (by rfl),
   (claim_c9_no_abort_amended cfg0 initState lineNoMatch).2.2.1 none "; layer 1",
   (claim_c9_no_abort_amended cfg0 initState lineNoMatch).2.2.2.1 M6 lineIKPlain rfl,
   (claim_c9_no_abort_amended cfg0 initState lineNoMatch).2.2.2.2 M6 lineIKGood rfl⟩

theorem splineLenGo_found (dL z : ℚ) (l : List ℚ) :
    ∀ (i k : ℕ) (h : ℚ), l.get? i = some h → z ≤ h → (∀ x ∈ l.take i, x < z) →
      splineLenGo dL z k l = (((k + i : ℕ) : ℚ) * dL, []) := by
  induction l with
  | nil =>
    intro i k h hget
    simp at hget
  | cons h0 rest ih =>
    intro i k h hget hge htake
    cases i with
    | zero =>
      have hh : h0 = h := by simpa using hget
      subst hh
      simp only [splineLenGo]
      rw [if_pos hge]
      norm_num
    | succ j =>
      have h0lt : h0 < z := htake h0 (by simp)
      simp only [splineLenGo]
      rw [if_neg (not_le.mpr h0lt)]
      have hrec := ih j (k + 1) h (by simpa using hget) hge
        (fun x hx => htake x (by simp [hx]))
      rw [hrec]
      have harith : k + 1 + j = k + (j + 1) := by omega
      rw [harith]

theorem splineLenGo_exhaust (dL z : ℚ) (l : List ℚ) :
    ∀ k : ℕ, (∀ x ∈ l, x < z) → splineLenGo dL z k l = (z, [Diag.splineTooShort z]) := by
  induction l with
  | nil => intro k _; rfl
  | cons h0 rest ih =>
    intro k h
    simp only [splineLenGo]
    rw [if_neg (not_le.mpr (h h0 (by simp)))]
    exact ih (k + 1) (fun x hx => h x (by simp [hx]))

/-- C3: `on_spline_length` returns `i * discretization_length` for the
smallest index `i` whose cumulative arc-length sample is `≥ z` (all earlier
samples being strictly below `z`); if no sample satisfies the predicate it
emits the warning diagnostic and returns `z` itself; and on any freshly
built lookup table (which always starts with the sample `0`) the corrected
height of `0` is `0`. -/
theorem claim_c3_corrected_height (dL z : ℚ) :
    (∀ (lookup : List ℚ) (i : ℕ) (h : ℚ), lookup.get? i = some h → z ≤ h →
        (∀ x ∈ lookup.take i, x < z) →
        on_spline_length lookup dL z = ((i : ℚ) * dL, []))
    ∧ (∀ lookup : List ℚ, (∀ x ∈ lookup, x < z) →
        on_spline_length lookup dL z = (z, [Diag.splineTooShort z]))
    ∧ (∀ (f g : ℚ → ℚ) (steps : List ℚ),
        on_spline_length (mkLookup f g dL steps) dL 0 = (0, [])) := by
  refine ⟨?_, ?_, ?_⟩
  · intro lookup i h hget hge htake
    have hrec := splineLenGo_found dL z lookup i 0 h hget hge htake
    rw [on_spline_length, hrec]
    norm_num
  · intro lookup h
    exact splineLenGo_exhaust dL z lookup 0 h
  · intro f g steps
    simp [on_spline_length, mkLookup, splineLenGo]

/-- Witness for C3: table `[0, 3, 7]` with step `5` maps target `2` to the
second sample (`1 * 5`), table `[0, 3]` is too short for target `10` and
falls back to `10` with the warning, and a freshly built table maps `0` to
`0`. -/
theorem claim_c3_witness :
    on_spline_length [0, 3, 7] 5 2 = (((1 : ℕ) : ℚ) * 5, [])
    ∧ on_spline_length [0, 3] 5 10 = (10, [Diag.splineTooShort 10])
    ∧ on_spline_length (mkLookup (fun _ => 0) (fun _ => 0) 5 [5]) 5 0 = (0, []) :=
  ⟨(claim_c3_corrected_height 5 2).1 [0, 3, 7] 1 3 rfl (by norm_num) (by norm_num),
   (claim_c3_corrected_height 5 10).2.1 [0, 3] (by norm_num),
   (claim_c3_corrected_height 5 0).2.2 (fun _ => 0) (fun _ => 0) [5]⟩

/-- C6: the IK stage rewrites each translational axis present in a G/M line
with `func_x`, `func_y`, `func_z` (degree inputs passed through `radians`,
absent fields defaulting to `0`); with `La = 28.4` and `Lb = 47.7` the home
input `X=0, Y=0, Z=0, A=0, B=0` yields `X'=0, Y'=0, Z'=0`; every rewritten
coordinate is `≥ 0` thanks to the `max(..., 0)` clamp; and the pass emits
no diagnostic (the clamp is silent). -/
theorem claim_c6_ik_remap (M : MathLib)
    (hs : M.sin (M.radians 0) = 0) (hc : M.cos (M.radians 0) = 1) :
    func_x M 0 0 0 0 0 = 0 ∧ func_y M 0 0 0 0 0 = 0 ∧ func_z M 0 0 0 0 0 = 0
    ∧ (∀ x y z a b : ℚ,
        0 ≤ func_x M x y z a b ∧ 0 ≤ func_y M x y z a b ∧ 0 ≤ func_z M x y z a b)
    ∧ (∀ l : IKLine, l.isGM = true → recalculate M l = { l with parts := rewriteParts M l.parts })
    ∧ (∀ l : IKLine, l.isGM = false → recalculate M l = l)
    ∧ (∀ lines : List IKLine, (runIK M lines).2 = []) := by
  refine ⟨?_, ?_, ?_, ?_, ?_, ?_, ?_⟩
  · simp only [func_x]
    rw [hs, hc]
    norm_num
  · simp only [func_y]
    rw [hs, hc]
    norm_num
  · simp only [func_z]
    rw [hc]
    norm_num
  · intro x y z a b
    exact ⟨le_max_right _ _, le_max_right _ _, le_max_right _ _⟩
  · intro l hl
    simp [recalculate, hl]
  · intro l hl
    simp [recalculate, hl]
  · intro lines
    rfl

/-- Witness for C6: the home case under a concrete math library with
`sin = 0` and `cos = 1`. -/
theorem claim_c6_witness :
    func_x M6 0 0 0 0 0 = 0 ∧ func_y M6 0 0 0 0 0 = 0 ∧ func_z M6 0 0 0 0 0 = 0 :=
  ⟨(claim_c6_ik_remap M6 rfl rfl).1, (claim_c6_ik_remap M6 rfl rfl).2.1,
   (claim_c6_ik_remap M6 rfl rfl).2.2.1⟩
